import Mathlib

/-!
Verification of the StitchKit installer (install_stitchkit.py).

The development shallowly embeds the installer's core state machine:
the credential checker `check_env_credentials`, the backup manager
(`backup_existing`, `restore_env_from_backup`), the configuration
materializer (`create_basic_env`, `setup_environment`) and the
orchestrator (`run`, `main`).  The filesystem is modelled as the parts
the installer reads and writes: the install directory (with its `.env`
file) and the list of sibling backup directories.  User input is a
script of response strings; external collaborators (pip, the shell
alias file, the editor, the launched app) are modelled by oracles in a
configuration record, since the installer only observes their
success or failure.
-/

/-- Does the character list `p` occur as a prefix of `s`?  Mirrors the
start of a Python substring scan. -/
def startsWithL : List Char → List Char → Bool
  | _, [] => true
  | [], _ :: _ => false
  | c :: cs, p :: ps => c == p && startsWithL cs ps

/-- Does the character list `p` occur contiguously inside `s`?  This is
Python's `p in s` substring test on the underlying characters. -/
def hasSubL : List Char → List Char → Bool
  | [], p => p.isEmpty
  | c :: cs, p => startsWithL (c :: cs) p || hasSubL cs p

/-- Python's `pat in s` substring containment on strings. -/
def strHasSub (s pat : String) : Bool :=
  hasSubL s.data pat.data

/-- Strict lexicographic order on character lists by code point, as
Python compares strings (and `pathlib` paths sharing a parent). -/
def strLtL : List Char → List Char → Bool
  | [], [] => false
  | [], _ :: _ => true
  | _ :: _, [] => false
  | a :: as, b :: bs =>
      if a.toNat < b.toNat then true
      else if b.toNat < a.toNat then false
      else strLtL as bs

/-- Non-strict lexicographic order on strings, as used by Python's
`sorted` on the backup paths. -/
def strLeB (a b : String) : Bool :=
  !(strLtL b.data a.data)

/-- Lowercase one character, as Python's `str.lower` acts on the
ASCII range (the only range the installer's `y`/`n` comparison can
match after lowercasing). -/
def lowerChar (c : Char) : Char :=
  if 65 ≤ c.toNat ∧ c.toNat ≤ 90 then Char.ofNat (c.toNat + 32) else c

/-- Python's `str.lower` applied to a user response. -/
def lowerStr (s : String) : String :=
  ⟨s.data.map lowerChar⟩

/-- Contents of a file as the installer can observe them: a read either
succeeds with the text or raises (any exception is possible); the
`unreadable` constructor stands for a file whose read raises. -/
inductive FileData
  | unreadable
  | readable (content : String)
deriving DecidableEq

/-- The install directory as the core state machine observes it: the
only file the machine reads or writes inside it is `.env`
(`none` = no `.env` file present). -/
structure InstallDir where
  envFile : Option FileData
deriving DecidableEq

/-- A sibling backup directory `StitchKit.backup-<timestamp>` in the
home directory: its name and the `.env` file it contains, if any. -/
structure Backup where
  name : String
  envFile : Option FileData
deriving DecidableEq

/-- The slice of the filesystem the installer reads and writes: the
install directory (`~/StitchKit`, `none` = absent) and the backup
directories matching `StitchKit.backup-*` in the home directory. -/
structure FS where
  install : Option InstallDir
  backups : List Backup
deriving DecidableEq

/-- The interactive confirmations the installer can issue. -/
inductive Prompt
  | backupQ
  | restoreQ
  | configureQ
  | editorEnter
deriving DecidableEq

/-- Terminal outcome of one `run` invocation. -/
inductive Outcome
  | launched
  | guidedManual
  | versionFail
deriving DecidableEq

/-- One installer instance: the filesystem, the pending script of user
responses, the two instance flags `env_restored` and
`env_has_credentials` (both `False` on a fresh instance), and the trace
of prompts issued so far. -/
structure IState where
  fs : FS
  inputs : List String
  env_restored : Bool
  env_has_credentials : Bool
  prompts : List Prompt
deriving DecidableEq

/-- External facts the installer only observes: the Python version,
the wall clock (as the formatted backup timestamp), whether the
`shutil.move` for the backup succeeds, whether launching `main.py`
succeeds, and what the external editor session leaves in `.env`
(`none` = the user saved nothing / left the file as it was). -/
structure Cfg where
  version : Nat × Nat
  now : String
  moveOk : Bool
  launchOk : Bool
  editResult : Option FileData
deriving DecidableEq

/-- Fresh installer instance over a filesystem and an input script, as
`main` constructs it: both flags start `False`, no prompts issued. -/
def freshState (fs : FS) (inputs : List String) : IState :=
  { fs := fs, inputs := inputs, env_restored := false,
    env_has_credentials := false, prompts := [] }

/-- Consume the next scripted user response (empty string if the
script is exhausted) and record the prompt issued. -/
def takeInput (s : IState) (p : Prompt) : String × IState :=
  match s.inputs with
  | [] => ("", { s with prompts := s.prompts ++ [p] })
  | r :: rest => (r, { s with inputs := rest, prompts := s.prompts ++ [p] })

/-- The version check of `check_python_version`: `sys.version_info <
(3, 7)` under Python tuple comparison on (major, minor). -/
def check_python_version (v : Nat × Nat) : Bool :=
  if v.1 < 3 ∨ (v.1 = 3 ∧ v.2 < 7) then false else true

/-- The pure text test of `check_env_credentials` (lines 134-139): for
each of the three required fields, the file text must contain
`FIELD_NAME=` and must not contain that field's placeholder literal;
the three per-field results are conjoined. -/
def check_env_credentials_content (content : String) : Bool :=
  let has_canvas := strHasSub content "CANVAS_API_KEY=" &&
    !(strHasSub content "your_canvas_api_key_here")
  let has_honorlock_key := strHasSub content "HONORLOCK_CONSUMER_KEY=" &&
    !(strHasSub content "your_honorlock_consumer_key_here")
  let has_honorlock_secret := strHasSub content "HONORLOCK_SHARED_SECRET=" &&
    !(strHasSub content "your_honorlock_shared_secret_here")
  has_canvas && has_honorlock_key && has_honorlock_secret

/-- The full `check_env_credentials`: `False` when `.env` does not
exist (in particular when the install directory is absent), `False`
when reading it raises (the `except` clause swallows the error), else
the text test on its content. -/
def check_env_credentials (fs : FS) : Bool :=
  match fs.install with
  | none => false
  | some d =>
    match d.envFile with
    | none => false
    | some .unreadable => false
    | some (.readable content) => check_env_credentials_content content

/-- Name of the backup directory `backup_existing` creates:
`StitchKit.backup-` followed by the formatted timestamp. -/
def backup_name (timestamp : String) : String :=
  "StitchKit.backup-" ++ timestamp

/-- The `backup_existing` step: move the install directory to the
timestamped sibling and return its location; any failure of the move
(source missing, or any other I/O error, modelled by `moveOk = false`)
is caught and reported, and `None` is returned with the filesystem
unchanged. -/
def backup_existing (cfg : Cfg) (fs : FS) : FS × Option String :=
  match fs.install with
  | none => (fs, none)
  | some d =>
    if cfg.moveOk then
      ({ install := none,
         backups := fs.backups ++ [⟨backup_name cfg.now, d.envFile⟩] },
       some (backup_name cfg.now))
    else (fs, none)

/-- Stable insertion of a backup into a name-sorted list, ascending. -/
def insertB (x : Backup) : List Backup → List Backup
  | [] => [x]
  | y :: ys => if strLeB x.name y.name then x :: y :: ys else y :: insertB x ys

/-- Python's `sorted` on the globbed backup paths: ascending stable
sort by name. -/
def sortBackups : List Backup → List Backup
  | [] => []
  | x :: xs => insertB x (sortBackups xs)

/-- The backup-search part of `restore_env_from_backup` (lines 96-103):
glob `StitchKit.backup-*`, sort, take the last entry; `none` when no
backups exist. -/
def findLatestBackup (bs : List Backup) : Option Backup :=
  (sortBackups bs).getLast?

/-- The `restore_env_from_backup` step: find the latest backup; if it
exists and contains a `.env`, offer the restore; on acceptance
(response lowercased equal to `y`) create the install directory and
copy the backup's `.env` into it, set `env_restored`, and recompute
`env_has_credentials`.  Returns whether a restore occurred. -/
def restore_env_from_backup (s : IState) : IState × Bool :=
  match findLatestBackup s.fs.backups with
  | none => (s, false)
  | some latest =>
    match latest.envFile with
    | none => (s, false)
    | some fd =>
      let (resp, s1) := takeInput s .restoreQ
      if lowerStr resp == "y" then
        let fs2 : FS := { s1.fs with install := some ⟨some fd⟩ }
        ({ s1 with
            fs := fs2, env_restored := true,
            env_has_credentials := check_env_credentials fs2 }, true)
      else (s1, false)

/-- The `check_existing_installation` step: if the install directory
exists, offer a backup; on acceptance run `backup_existing`, and when
that returns a location, run `restore_env_from_backup`.  Returns
whether an installation existed. -/
def check_existing_installation (cfg : Cfg) (s : IState) : IState × Bool :=
  match s.fs.install with
  | none => (s, false)
  | some _ =>
    let (resp, s1) := takeInput s .backupQ
    if lowerStr resp == "y" then
      match backup_existing cfg s1.fs with
      | (fs2, some _) => ((restore_env_from_backup { s1 with fs := fs2 }).1, true)
      | (fs2, none) => ({ s1 with fs := fs2 }, true)
    else (s1, true)

/-- The template's full-width banner row: eighty hash marks. -/
def hashRow : String :=
  String.mk (List.replicate 80 (Char.ofNat 35))

/-- The template's section separator row: a hash mark followed by
seventy-nine equals signs. -/
def eqRow : String :=
  "#" ++ String.mk (List.replicate 79 (Char.ofNat 61))

/-- The lines of the fixed `.env` template `create_basic_env` writes. -/
def env_content_lines : List String := [
  hashRow,
  "#                                                                              #",
  "#                    🎓 StitchKit Environment Configuration 🎓                 #",
  "#                        University of St. Thomas                             #",
  "#                                                                              #",
  hashRow,
  "",
  eqRow,
  "# 🚀 APPLICATION SETTINGS",
  eqRow,
  "",
  "# Application name and branding",
  "STITCHKIT_APP_NAME=StitchKit",
  "STITCHKIT_APP_FULL_NAME=St. Thomas Instructional Technology Command Hub Kit",
  "",
  "# Logging level: DEBUG, INFO, WARNING, ERROR, CRITICAL",
  "STITCHKIT_LOG_LEVEL=INFO",
  "",
  eqRow,
  "# 🎨 CANVAS CONFIGURATION - MAIN",
  eqRow,
  "",
  "# [REQUIRED] Your Canvas API Key",
  "# 📝 How to get your Canvas API key:",
  "#    1. Log into Canvas (https://stthomas.instructure.com)",
  "#    2. Click on \"Account\" in the left sidebar",
  "#    3. Click on \"Settings\"",
  "#    4. Scroll down to \"Approved Integrations\"",
  "#    5. Click \"+ New Access Token\"",
  "#    6. Enter a purpose (e.g., \"StitchKit Admin Tools\")",
  "#    7. Leave expiration blank for permanent token (or set a date)",
  "#    8. Click \"Generate Token\"",
  "#    9. ⚠️ COPY THE TOKEN NOW - you won\x27t see it again!",
  "#    10. Paste it below",
  "CANVAS_API_KEY=your_canvas_api_key_here",
  "",
  "# Your Canvas instance URL",
  "CANVAS_BASE_URL=https://stthomas.instructure.com",
  "",
  "# Your Canvas Account ID (usually 1 for main account)",
  "CANVAS_ACCOUNT_ID=1",
  "",
  eqRow,
  "# 🔄 CANVAS MULTI-ENVIRONMENT SETUP (Future Feature)",
  eqRow,
  "# Note: These are placeholders for future multi-environment support",
  "# They are NOT currently active in StitchKit",
  "",
  "# Production Environment (future feature)",
  "CANVAS_PROD_API_KEY=your_production_api_key_here",
  "CANVAS_PROD_BASE_URL=https://stthomas.instructure.com",
  "CANVAS_PROD_ACCOUNT_ID=1",
  "",
  "# Test Environment (future feature)",
  "CANVAS_TEST_API_KEY=your_test_api_key_here",
  "CANVAS_TEST_BASE_URL=https://stthomas.test.instructure.com",
  "CANVAS_TEST_ACCOUNT_ID=1",
  "",
  "# Default environment selection (future feature)",
  "CANVAS_DEFAULT_ENV=test",
  "",
  "# Canvas integration toggle",
  "CANVAS_ENABLED=true",
  "",
  eqRow,
  "# 📚 CANVAS CATALOG INTEGRATION",
  eqRow,
  "",
  "# [OPTIONAL] Canvas Catalog API Token",
  "# 📝 How to get your Canvas Catalog token:",
  "#    1. Log into Canvas Catalog admin",
  "#    2. Navigate to Admin → Settings → API Access",
  "#    3. Generate a new API token",
  "#    4. Copy and paste it here",
  "CANVAS_CAT_API_TOKEN=your_canvas_catalog_token_here",
  "",
  eqRow,
  "# 🛡️ HONORLOCK INTEGRATION",
  eqRow,
  "",
  "# [REQUIRED] Honorlock Consumer Key",
  "# 📝 How to get Honorlock credentials:",
  "#    1. Contact your Honorlock representative",
  "#    2. Request LTI integration credentials for your institution",
  "#    3. They will provide the consumer key and shared secret",
  "HONORLOCK_CONSUMER_KEY=your_honorlock_consumer_key_here",
  "",
  "# [REQUIRED] Honorlock Shared Secret",
  "# ⚠️ Keep this secret! Do not share or commit to version control",
  "HONORLOCK_SHARED_SECRET=your_honorlock_shared_secret_here",
  "",
  "# Honorlock Configuration URL (typically the same for all institutions)",
  "HONORLOCK_CONFIG_URL=https://app.honorlock.com/lti_config",
  "",
  eqRow,
  "# 📝 IMPORTANT NOTES",
  eqRow,
  "# ",
  "# ⚠️ REQUIRED FIELDS:",
  "#    • CANVAS_API_KEY - Must be set for StitchKit to function",
  "#    • HONORLOCK_CONSUMER_KEY - Required for Honorlock integration",
  "#    • HONORLOCK_SHARED_SECRET - Required for Honorlock integration",
  "#",
  "# 💡 SECURITY REMINDER:",
  "#    • Never commit this .env file to Git",
  "#    • Keep your API keys secret and secure",
  "#    • This file contains sensitive credentials",
  "#",
  eqRow,  ""]

/-- The fixed `.env` template text (the Python triple-quoted literal
ends with a newline, hence the trailing empty line). -/
def env_content : String :=
  String.intercalate "\n" env_content_lines

/-- The `create_basic_env` step: write the fixed template as the
install directory's `.env`. -/
def create_basic_env (_ : InstallDir) : InstallDir :=
  ⟨some (.readable env_content)⟩

/-- The `setup_environment` step on the (existing) install directory:
if `.env` was restored from backup and exists, done; else if no `.env`
exists, write the template; else leave the directory untouched. -/
def setup_environment (env_restored : Bool) (d : InstallDir) : InstallDir :=
  if env_restored && d.envFile.isSome then d
  else if d.envFile.isNone then create_basic_env d
  else d

/-- Effect of the external editor session on `.env` (inside
`guide_env_setup`): the oracle `editResult` says what the user left in
the file (`none` = no change saved). -/
def applyEdit (cfg : Cfg) (s : IState) : IState :=
  match cfg.editResult with
  | none => s
  | some fd =>
    match s.fs.install with
    | none => s
    | some _ => { s with fs := { s.fs with install := some ⟨some fd⟩ } }

/-- The `guide_env_setup` step: wait for Enter, run the editor, then
recompute `env_has_credentials` from the (possibly edited) file. -/
def guide_env_setup (cfg : Cfg) (s : IState) : IState :=
  let (_, s1) := takeInput s .editorEnter
  let s2 := applyEdit cfg s1
  { s2 with env_has_credentials := check_env_credentials s2.fs }

/-- Launch attempt at the end of `run`: `subprocess.call` on the
target app either starts it (`LAUNCHED`) or raises, in which case the
error is reported and the manual next-steps are shown instead.  Either
way `run` returns `True`. -/
def attempt_launch (cfg : Cfg) (s : IState) : IState × Outcome × Bool :=
  if cfg.launchOk then (s, .launched, true) else (s, .guidedManual, true)

/-- Step 7 of `run`: refresh `env_has_credentials` if not already set;
with credentials, launch; without, offer the guided edit and re-check;
decline or a still-incomplete file ends in the manual instructions. -/
def final_steps (cfg : Cfg) (s : IState) : IState × Outcome × Bool :=
  let cred0 := if s.env_has_credentials then true else check_env_credentials s.fs
  let s1 := { s with env_has_credentials := cred0 }
  if cred0 then attempt_launch cfg s1
  else
    let (resp, s2) := takeInput s1 .configureQ
    if lowerStr resp == "y" then
      let s3 := guide_env_setup cfg s2
      if s3.env_has_credentials then attempt_launch cfg s3
      else (s3, .guidedManual, true)
    else (s2, .guidedManual, true)

/-- Step 3 of `run`: create the install directory when absent
(`mkdir -p`, no error when present). -/
def ensure_install_dir (s : IState) : IState :=
  match s.fs.install with
  | none => { s with fs := { s.fs with install := some ⟨none⟩ } }
  | some _ => s

/-- The full `run` orchestrator.  Steps: version check (early `False`
on failure); existing-installation check (backup/restore offers);
ensure install directory; dependency installation and alias creation
(external collaborators that do not touch the modelled state; their
failures are warnings); `setup_environment`; the final
credential-driven decision.  Returns the final state, the terminal
outcome, and `run`'s boolean return value. -/
def run (cfg : Cfg) (s : IState) : IState × Outcome × Bool :=
  if check_python_version cfg.version = false then (s, .versionFail, false)
  else
    let s1 := (check_existing_installation cfg s).1
    let s2 := ensure_install_dir s1
    let s3 := { s2 with
      fs := { s2.fs with
        install := (s2.fs.install).map (setup_environment s2.env_restored) } }
    final_steps cfg s3

/-- How the top-level `try` in `main` ends: `run` returns normally, or
a `KeyboardInterrupt` or another unhandled exception escapes it. -/
inductive TopEvent
  | normal
  | keyboardInterrupt
  | raised
deriving DecidableEq

/-- The `main` entry point's exit code: `sys.exit(0 if success else
1)` on normal return, `sys.exit(1)` from either `except` clause. -/
def main_exit (cfg : Cfg) (s : IState) (ev : TopEvent) : Nat :=
  match ev with
  | .normal => if (run cfg s).2.2 then 0 else 1
  | .keyboardInterrupt => 1
  | .raised => 1

/-- Ascending order (by name) of the backup list. -/
def leP (a b : Backup) : Prop := strLeB a.name b.name = true

/-- Substring test agrees with `List.IsPrefix` at the head. -/
theorem startsWithL_iff (s p : List Char) :
    startsWithL s p = true ↔ p <+: s := by
  induction p generalizing s with
  | nil => simp [startsWithL, List.nil_prefix]
  | cons x xs ih =>
    cases s with
    | nil => simp [startsWithL]
    | cons c cs =>
      simp only [startsWithL, Bool.and_eq_true, beq_iff_eq, ih,
        List.cons_prefix_cons]
      exact and_congr_left fun _ => eq_comm

/-- Substring test agrees with `List.IsInfix`. -/
theorem hasSubL_iff (s p : List Char) :
    hasSubL s p = true ↔ p <:+: s := by
  induction s with
  | nil => simp [hasSubL, List.isEmpty_iff]
  | cons c cs ih =>
    rw [List.infix_cons_iff]
    simp [hasSubL, startsWithL_iff, ih]

/-- String substring test agrees with `List.IsInfix` on the data. -/
theorem strHasSub_iff (s pat : String) :
    strHasSub s pat = true ↔ pat.data <:+: s.data := by
  simp [strHasSub, hasSubL_iff]

/-- Lexicographic strict order is irreflexive. -/
theorem strLtL_irrefl (a : List Char) : strLtL a a = false := by
  induction a with
  | nil => rfl
  | cons c cs ih => simp [strLtL, ih]

/-- Lexicographic strict order is asymmetric. -/
theorem strLtL_asymm (a b : List Char) (h : strLtL a b = true) :
    strLtL b a = false := by
  induction a generalizing b with
  | nil =>
    cases b with
    | nil => simp [strLtL] at h
    | cons x xs => rfl
  | cons c cs ih =>
    cases b with
    | nil => simp [strLtL] at h
    | cons x xs =>
      simp only [strLtL] at h ⊢
      rcases Nat.lt_trichotomy c.toNat x.toNat with hlt | heq | hgt
      · simp [hlt, show ¬ x.toNat < c.toNat by omega]
      · simp only [heq, Nat.lt_irrefl, if_false] at h ⊢
        exact ih xs h
      · simp [hgt, show ¬ c.toNat < x.toNat by omega] at h

/-- Two lists neither of which is lexicographically below the other are
equal. -/
theorem strLtL_connex (a b : List Char)
    (hab : strLtL a b = false) (hba : strLtL b a = false) : a = b := by
  induction a generalizing b with
  | nil =>
    cases b with
    | nil => rfl
    | cons x xs => simp [strLtL] at hab
  | cons c cs ih =>
    cases b with
    | nil => simp [strLtL] at hba
    | cons x xs =>
      simp only [strLtL] at hab hba
      rcases Nat.lt_trichotomy c.toNat x.toNat with hlt | heq | hgt
      · simp [hlt] at hab
      · have hcx : c = x :=
          Char.eq_of_val_eq (UInt32.eq_of_toBitVec_eq (BitVec.eq_of_toNat_eq heq))
        subst hcx
        simp only [Nat.lt_irrefl, if_false] at hab hba
        rw [ih xs hab hba]
      · simp [hgt] at hba

/-- Lexicographic strict order is transitive. -/
theorem strLtL_trans (a b c : List Char)
    (hab : strLtL a b = true) (hbc : strLtL b c = true) :
    strLtL a c = true := by
  induction a generalizing b c with
  | nil =>
    cases c with
    | cons z zs => rfl
    | nil =>
      cases b with
      | nil => simp [strLtL] at hab
      | cons y ys => simp [strLtL] at hbc
  | cons x xs ih =>
    cases b with
    | nil => simp [strLtL] at hab
    | cons y ys =>
      cases c with
      | nil => simp [strLtL] at hbc
      | cons z zs =>
        simp only [strLtL] at hab hbc ⊢
        rcases Nat.lt_trichotomy x.toNat y.toNat with h1 | h1 | h1
        · rcases Nat.lt_trichotomy y.toNat z.toNat with h2 | h2 | h2
          · simp [show x.toNat < z.toNat by omega]
          · simp [show x.toNat < z.toNat by omega]
          · simp [show ¬ y.toNat < z.toNat by omega, h2] at hbc
        · simp only [h1, Nat.lt_irrefl, if_false] at hab
          rcases Nat.lt_trichotomy y.toNat z.toNat with h2 | h2 | h2
          · simp [show x.toNat < z.toNat by omega]
          · simp only [show ¬ x.toNat < z.toNat by omega, if_false,
              show ¬ z.toNat < x.toNat by omega]
            simp only [h2, Nat.lt_irrefl, if_false] at hbc
            exact ih ys zs hab hbc
          · simp [show ¬ y.toNat < z.toNat by omega, h2] at hbc
        · simp [show ¬ x.toNat < y.toNat by omega, h1] at hab

/-- Non-strict order is reflexive. -/
theorem strLeB_refl (a : String) : strLeB a a = true := by
  simp [strLeB, strLtL_irrefl]

/-- Non-strict order is total. -/
theorem strLeB_total (a b : String) (h : strLeB a b = false) :
    strLeB b a = true := by
  simp only [strLeB, Bool.not_eq_false'] at h
  simp only [strLeB, Bool.not_eq_true']
  exact strLtL_asymm _ _ h

/-- Non-strict order is transitive. -/
theorem strLeB_trans (a b c : String)
    (hab : strLeB a b = true) (hbc : strLeB b c = true) :
    strLeB a c = true := by
  simp only [strLeB, Bool.not_eq_true'] at hab hbc
  simp only [strLeB, Bool.not_eq_true']
  cases hca : strLtL c.data a.data with
  | false => rfl
  | true =>
    exfalso
    cases h2 : strLtL b.data c.data with
    | true =>
      have h3 := strLtL_trans _ _ _ h2 hca
      rw [hab] at h3
      exact Bool.noConfusion h3
    | false =>
      have hbc2 := strLtL_connex _ _ h2 hbc
      rw [← hbc2] at hca
      rw [hab] at hca
      exact Bool.noConfusion hca

/-- Strict order from a failed non-strict comparison. -/
theorem strLt_of_not_le (a b : String) (h : strLeB a b = false) :
    strLtL b.data a.data = true := by
  simpa [strLeB] using h

/-- Membership in an insertion. -/
theorem insertB_mem (x : Backup) (l : List Backup) (a : Backup) :
    a ∈ insertB x l ↔ a = x ∨ a ∈ l := by
  induction l with
  | nil => simp [insertB]
  | cons y ys ih =>
    rw [insertB]
    by_cases h : strLeB x.name y.name = true
    · rw [if_pos h]
      simp only [List.mem_cons]
    · rw [if_neg h]
      simp only [List.mem_cons, ih]
      tauto

/-- Sorting preserves membership. -/
theorem sortBackups_mem (l : List Backup) (a : Backup) :
    a ∈ sortBackups l ↔ a ∈ l := by
  induction l with
  | nil => simp [sortBackups]
  | cons x xs ih => simp [sortBackups, insertB_mem, ih]

/-- Sorting yields the empty list only on the empty list. -/
theorem sortBackups_eq_nil_iff (l : List Backup) :
    sortBackups l = [] ↔ l = [] := by
  cases l with
  | nil => simp [sortBackups]
  | cons x xs =>
    simp only [sortBackups]
    constructor
    · intro h
      have : x ∈ insertB x (sortBackups xs) := by
        rw [insertB_mem]
        exact Or.inl rfl
      rw [h] at this
      cases this
    · intro h
      cases h

/-- Insertion preserves the pairwise ascending invariant. -/
theorem insertB_pairwise (x : Backup) (l : List Backup)
    (hp : List.Pairwise leP l) : List.Pairwise leP (insertB x l) := by
  induction l with
  | nil => simp [insertB, leP]
  | cons y ys ih =>
    rcases List.pairwise_cons.mp hp with ⟨hy, hys⟩
    by_cases h : strLeB x.name y.name = true
    · rw [insertB, if_pos h]
      refine List.pairwise_cons.mpr ⟨?_, hp⟩
      intro z hz
      rcases List.mem_cons.mp hz with rfl | hz2
      · exact h
      · exact strLeB_trans _ _ _ h (hy z hz2)
    · rw [insertB, if_neg h]
      refine List.pairwise_cons.mpr ⟨?_, ih hys⟩
      intro z hz
      rcases (insertB_mem x ys z).mp hz with rfl | hz2
      · exact strLeB_total _ _ (by simpa using h)
      · exact hy z hz2

/-- The sorted backup list is pairwise ascending by name. -/
theorem sortBackups_pairwise (l : List Backup) :
    List.Pairwise leP (sortBackups l) := by
  induction l with
  | nil => simp [sortBackups]
  | cons x xs ih => exact insertB_pairwise x (sortBackups xs) ih

/-- The last entry of a pairwise-ascending list dominates every
entry. -/
theorem pairwise_getLast_max (l : List Backup) (m : Backup)
    (hp : List.Pairwise leP l) (hl : l.getLast? = some m) :
    ∀ a ∈ l, strLeB a.name m.name = true := by
  induction l with
  | nil => cases hl
  | cons x xs ih =>
    rcases List.pairwise_cons.mp hp with ⟨hx, hxs⟩
    cases xs with
    | nil =>
      simp only [List.getLast?_singleton, Option.some.injEq] at hl
      subst hl
      intro a ha
      rcases List.mem_cons.mp ha with rfl | h2
      · exact strLeB_refl _
      · cases h2
    | cons y ys =>
      rw [List.getLast?_cons_cons] at hl
      intro a ha
      rcases List.mem_cons.mp ha with rfl | h2
      · exact strLeB_trans _ _ _
          (hx m (List.mem_of_mem_getLast? hl))
          (strLeB_refl _)
      · exact ih hxs hl a h2

/-- The latest backup found belongs to the list and dominates every
backup by name. -/
theorem findLatestBackup_max (bs : List Backup) (m : Backup)
    (h : findLatestBackup bs = some m) :
    m ∈ bs ∧ ∀ a ∈ bs, strLeB a.name m.name = true := by
  have hm : m ∈ sortBackups bs := List.mem_of_mem_getLast? h
  refine ⟨(sortBackups_mem bs m).mp hm, ?_⟩
  intro a ha
  exact pairwise_getLast_max (sortBackups bs) m (sortBackups_pairwise bs) h a
    ((sortBackups_mem bs a).mpr ha)

/-- A nonempty backup list yields a latest backup. -/
theorem findLatestBackup_isSome (bs : List Backup) (h : bs ≠ []) :
    ∃ m, findLatestBackup bs = some m := by
  have : sortBackups bs ≠ [] := by
    intro h2
    exact h ((sortBackups_eq_nil_iff bs).mp h2)
  rcases Option.isSome_iff_exists.mp (List.getLast?_isSome.mpr this) with ⟨m, hm⟩
  exact ⟨m, hm⟩

/-- If one backup strictly dominates every other by name, the search
returns exactly it, whatever the order of the list. -/
theorem findLatestBackup_eq_of_strict (bs : List Backup) (b : Backup)
    (hb : b ∈ bs)
    (hdom : ∀ a ∈ bs, a = b ∨ strLtL a.name.data b.name.data = true) :
    findLatestBackup bs = some b := by
  have hne : bs ≠ [] := by
    intro h
    rw [h] at hb
    cases hb
  rcases findLatestBackup_isSome bs hne with ⟨m, hm⟩
  rcases findLatestBackup_max bs m hm with ⟨hmem, hmax⟩
  rcases hdom m hmem with rfl | hlt
  · exact hm
  · exfalso
    have hle : strLeB b.name m.name = true := hmax b hb
    simp only [strLeB, Bool.not_eq_true'] at hle
    rw [hle] at hlt
    exact Bool.noConfusion hlt

/-- C1: for every configuration text, `check_env_credentials`'s text
test returns true iff, for each of the three required fields, the text
contains the substring `FIELD_NAME=` and does not contain that field's
placeholder literal; the three per-field conditions are conjoined, so
failing any one of them yields false. -/
theorem claim_C1 (content : String) :
    check_env_credentials_content content = true ↔
      (("CANVAS_API_KEY=".data <:+: content.data) ∧
        ¬ ("your_canvas_api_key_here".data <:+: content.data)) ∧
      (("HONORLOCK_CONSUMER_KEY=".data <:+: content.data) ∧
        ¬ ("your_honorlock_consumer_key_here".data <:+: content.data)) ∧
      (("HONORLOCK_SHARED_SECRET=".data <:+: content.data) ∧
        ¬ ("your_honorlock_shared_secret_here".data <:+: content.data)) := by
  simp only [check_env_credentials_content, Bool.and_eq_true,
    Bool.not_eq_true', Bool.eq_false_iff, ne_eq, strHasSub_iff, and_assoc]

/-- C7: the credential-completeness check returns false, surfacing no
error, whenever the configuration file does not exist (including when
the whole install directory is absent) or reading it raises; the read
failure is swallowed and yields the same plain false as an ordinary
incomplete file. -/
theorem claim_C7 (fs : FS)
    (h : fs.install = none ∨ ∃ d, fs.install = some d ∧
      (d.envFile = none ∨ d.envFile = some .unreadable)) :
    check_env_credentials fs = false := by
  rcases h with h | ⟨d, hd, h2⟩
  · simp [check_env_credentials, h]
  · rcases h2 with h2 | h2 <;> simp [check_env_credentials, hd, h2]

/-- C7 witness: a present but unreadable configuration file yields
false. -/
theorem claim_C7_witness :
    check_env_credentials ⟨some ⟨some FileData.unreadable⟩, []⟩ = false :=
  claim_C7 ⟨some ⟨some FileData.unreadable⟩, []⟩
    (Or.inr ⟨⟨some FileData.unreadable⟩, rfl, Or.inr rfl⟩)

/-- C10: the completeness check is whole-file substring matching:
(a) the three required names followed by `=` with empty values and no
placeholder literal anywhere is judged complete, and (b) any of the
three placeholder literals occurring anywhere in the text (for
example inside a comment line) makes the result false. -/
theorem claim_C10 (content : String)
    (hp : strHasSub content "your_canvas_api_key_here" = true ∨
          strHasSub content "your_honorlock_consumer_key_here" = true ∨
          strHasSub content "your_honorlock_shared_secret_here" = true) :
    check_env_credentials_content content = false ∧
    check_env_credentials_content
      "CANVAS_API_KEY=\nHONORLOCK_CONSUMER_KEY=\nHONORLOCK_SHARED_SECRET=\n"
      = true := by
  refine ⟨?_, by decide⟩
  rcases hp with h | h | h <;> simp [check_env_credentials_content, h]

/-- C10 witness: a file whose three assignments carry real values but
whose comment mentions a placeholder is judged incomplete, and the
empty-value file is judged complete. -/
theorem claim_C10_witness :
    check_env_credentials_content
      "CANVAS_API_KEY=realkey123\n# old: your_canvas_api_key_here\nHONORLOCK_CONSUMER_KEY=ck\nHONORLOCK_SHARED_SECRET=ss\n"
      = false ∧
    check_env_credentials_content
      "CANVAS_API_KEY=\nHONORLOCK_CONSUMER_KEY=\nHONORLOCK_SHARED_SECRET=\n"
      = true :=
  claim_C10
    "CANVAS_API_KEY=realkey123\n# old: your_canvas_api_key_here\nHONORLOCK_CONSUMER_KEY=ck\nHONORLOCK_SHARED_SECRET=ss\n"
    (Or.inl (by decide))

/-- C6: `setup_environment` branches as described: when the
configuration was restored from backup (the restore flag is set and
the restored file is present) materialization is skipped; when no
configuration file exists the fixed template is written; otherwise a
pre-existing file of arbitrary content is left unchanged. -/
theorem claim_C6 :
    (∀ c : FileData, setup_environment true ⟨some c⟩ = ⟨some c⟩) ∧
    (∀ r : Bool, setup_environment r ⟨none⟩ =
      ⟨some (.readable env_content)⟩) ∧
    (∀ c : FileData, setup_environment false ⟨some c⟩ = ⟨some c⟩) := by
  refine ⟨fun c => rfl, fun r => ?_, fun c => rfl⟩
  cases r <;> rfl

/-- C5: `backup_existing` returns the new backup location on success;
on any I/O failure of the move -- the source installation directory
being absent, or any other failure -- it returns `None` with the
filesystem unchanged, raising nothing; its caller then proceeds
without a backup (returning normally with the filesystem intact). -/
theorem claim_C5 (cfg : Cfg) (fs : FS) :
    (fs.install = none → backup_existing cfg fs = (fs, none)) ∧
    (cfg.moveOk = false → backup_existing cfg fs = (fs, none)) ∧
    (∀ d, fs.install = some d → cfg.moveOk = true →
      backup_existing cfg fs =
        ({ install := none,
           backups := fs.backups ++ [⟨backup_name cfg.now, d.envFile⟩] },
         some (backup_name cfg.now))) ∧
    (∀ s : IState, ∀ d : InstallDir, ∀ rest : List String,
      cfg.moveOk = false → s.fs.install = some d →
      s.inputs = "y" :: rest →
      check_existing_installation cfg s =
        ({ s with inputs := rest, prompts := s.prompts ++ [.backupQ] },
         true)) := by
  refine ⟨?_, ?_, ?_, ?_⟩
  · intro h
    simp [backup_existing, h]
  · intro h
    unfold backup_existing
    cases fs.install <;> simp [h]
  · intro d hd hmv
    simp [backup_existing, hd, hmv]
  · intro s d rest hmv hd hin
    simp [check_existing_installation, hd, takeInput, hin,
      backup_existing, hmv, show (lowerStr "y" == "y") = true by decide]

/-- C5 witness: a concrete failing move (absent source) returns
`None`, a concrete successful move returns the new location, and the
caller proceeds after a failed move. -/
theorem claim_C5_witness :
    (backup_existing ⟨(3, 9), "20250101-120000", true, true, none⟩
      ⟨none, []⟩ = (⟨none, []⟩, none)) ∧
    (backup_existing ⟨(3, 9), "20250101-120000", true, true, none⟩
      ⟨some ⟨none⟩, []⟩ =
      (⟨none, [⟨"StitchKit.backup-20250101-120000", none⟩]⟩,
       some "StitchKit.backup-20250101-120000")) ∧
    (check_existing_installation ⟨(3, 9), "20250101-120000", false, true, none⟩
      (freshState ⟨some ⟨none⟩, []⟩ ["y"]) =
      ({ fs := ⟨some ⟨none⟩, []⟩, inputs := [],
         env_restored := false, env_has_credentials := false,
         prompts := [.backupQ] }, true)) := by
  refine ⟨(claim_C5 _ _).1 rfl, ?_, ?_⟩
  · exact (claim_C5 ⟨(3, 9), "20250101-120000", true, true, none⟩
      ⟨some ⟨none⟩, []⟩).2.2.1 ⟨none⟩ rfl rfl
  · exact (claim_C5 ⟨(3, 9), "20250101-120000", false, true, none⟩
      ⟨some ⟨none⟩, []⟩).2.2.2 (freshState ⟨some ⟨none⟩, []⟩ ["y"])
      ⟨none⟩ [] rfl rfl rfl

/-- C4: the backup search lists the entries matching the backup-name
pattern, sorts them by name, and returns the last: whenever one backup
name strictly dominates all others (as `T3` does for timestamps
`T1 < T2 < T3`), that backup is returned regardless of the order the
entries were created or listed in, and the search returns `none` when
no backups exist. -/
theorem claim_C4 (bs : List Backup) (b : Backup)
    (hb : b ∈ bs)
    (hdom : ∀ a ∈ bs, a = b ∨ strLtL a.name.data b.name.data = true) :
    findLatestBackup bs = some b ∧
    findLatestBackup ([] : List Backup) = none :=
  ⟨findLatestBackup_eq_of_strict bs b hb hdom, rfl⟩

/-- C4 witness: three timestamped backups listed out of chronological
order still yield the chronologically (lexicographically) greatest. -/
theorem claim_C4_witness :
    findLatestBackup
      [⟨"StitchKit.backup-20250301-000000", none⟩,
       ⟨"StitchKit.backup-20250101-000000", none⟩,
       ⟨"StitchKit.backup-20250201-000000", none⟩] =
      some ⟨"StitchKit.backup-20250301-000000", none⟩ ∧
    findLatestBackup ([] : List Backup) = none :=
  claim_C4
    [⟨"StitchKit.backup-20250301-000000", none⟩,
     ⟨"StitchKit.backup-20250101-000000", none⟩,
     ⟨"StitchKit.backup-20250201-000000", none⟩]
    ⟨"StitchKit.backup-20250301-000000", none⟩
    (by decide) (by decide)

/-- C3: after a backup is created in the current run, the restore step
searches all backups system-wide and reads from the one whose name is
lexicographically greatest -- not necessarily the backup just created:
the restored `.env` content is that of the dominating backup, and the
backup list at restore time is the old list plus the new entry. -/
theorem claim_C3 (cfg : Cfg) (s : IState) (d : InstallDir)
    (rest : List String) (b : Backup) (fd : FileData)
    (hd : s.fs.install = some d)
    (hin : s.inputs = "y" :: "y" :: rest)
    (hmv : cfg.moveOk = true)
    (hb : b ∈ s.fs.backups ++ [⟨backup_name cfg.now, d.envFile⟩])
    (hdom : ∀ a ∈ s.fs.backups ++ [⟨backup_name cfg.now, d.envFile⟩],
      a = b ∨ strLtL a.name.data b.name.data = true)
    (hfd : b.envFile = some fd) :
    (check_existing_installation cfg s).1.fs =
      ⟨some ⟨some fd⟩, s.fs.backups ++ [⟨backup_name cfg.now, d.envFile⟩]⟩ ∧
    (check_existing_installation cfg s).1.env_restored = true := by
  have hlatest := findLatestBackup_eq_of_strict _ b hb hdom
  simp only [check_existing_installation, hd, takeInput, hin,
    show (lowerStr "y" == "y") = true by decide, if_true,
    backup_existing, hmv, restore_env_from_backup, hlatest, hfd]
  simp

/-- C3 witness: with a stale backup named later than the current
timestamp, the restore offer reads the stale backup's configuration,
not the one the backup step just created. -/
theorem claim_C3_witness :
    (check_existing_installation
      ⟨(3, 9), "20250101-000000", true, true, none⟩
      (freshState
        ⟨some ⟨some (.readable "CUR")⟩,
         [⟨"StitchKit.backup-20991231-235959", some (.readable "OLD")⟩]⟩
        ["y", "y"])).1.fs =
      ⟨some ⟨some (.readable "OLD")⟩,
       [⟨"StitchKit.backup-20991231-235959", some (.readable "OLD")⟩,
        ⟨"StitchKit.backup-20250101-000000", some (.readable "CUR")⟩]⟩ ∧
    (check_existing_installation
      ⟨(3, 9), "20250101-000000", true, true, none⟩
      (freshState
        ⟨some ⟨some (.readable "CUR")⟩,
         [⟨"StitchKit.backup-20991231-235959", some (.readable "OLD")⟩]⟩
        ["y", "y"])).1.env_restored = true :=
  claim_C3 ⟨(3, 9), "20250101-000000", true, true, none⟩
    (freshState
      ⟨some ⟨some (.readable "CUR")⟩,
       [⟨"StitchKit.backup-20991231-235959", some (.readable "OLD")⟩]⟩
      ["y", "y"])
    ⟨some (.readable "CUR")⟩ []
    ⟨"StitchKit.backup-20991231-235959", some (.readable "OLD")⟩
    (.readable "OLD")
    rfl rfl rfl (by decide) (by decide) rfl

/-- A prompt issued by `takeInput` is appended to the trace. -/
theorem takeInput_prompts (s : IState) (p : Prompt) :
    (takeInput s p).2.prompts = s.prompts ++ [p] := by
  unfold takeInput
  cases s.inputs <;> rfl

/-- The editor session leaves the prompt trace unchanged. -/
theorem applyEdit_prompts (cfg : Cfg) (s : IState) :
    (applyEdit cfg s).prompts = s.prompts := by
  unfold applyEdit
  rcases he : cfg.editResult with _ | fd
  · rfl
  · rcases hi : s.fs.install with _ | d <;> rfl

/-- The launch attempt leaves the state unchanged. -/
theorem attempt_launch_fst (cfg : Cfg) (s : IState) :
    (attempt_launch cfg s).1 = s := by
  unfold attempt_launch
  split <;> rfl

/-- The guided edit step records exactly one more prompt: the wait for
Enter before the editor opens. -/
theorem guide_env_setup_prompts (cfg : Cfg) (s : IState) :
    (guide_env_setup cfg s).prompts = s.prompts ++ [Prompt.editorEnter] := by
  unfold guide_env_setup
  dsimp only
  rw [applyEdit_prompts, takeInput_prompts]

/-- The restore step with an exhausted input script (Python's `input`
returning the empty response) leaves the filesystem unchanged. -/
theorem restore_env_no_input (s : IState) (h : s.inputs = []) :
    (restore_env_from_backup s).1.fs = s.fs := by
  unfold restore_env_from_backup
  rcases hfl : findLatestBackup s.fs.backups with _ | latest
  · rfl
  · dsimp only
    rcases hef : latest.envFile with _ | fd
    · rfl
    · simp [takeInput, h, show (lowerStr "" == "y") = false by decide]

/-- C9: each of the three interactive confirmations (the backup offer,
the restore offer and the configure-now offer) accepts a response iff
its lowercased form equals exactly `y`: the backup offer moves the
install directory away iff so, the restore offer restores iff so, and
the configure-now offer opens the guided editor iff so; any other
response (such as `yes`) declines the respective optional step. -/
theorem claim_C9 (resp : String) (cfg : Cfg) (d : InstallDir)
    (bs bs2 bs3 : List Backup) (b : Backup) (fd : FileData) (c : String)
    (hmv : cfg.moveOk = true)
    (hv : check_python_version cfg.version = true)
    (hlatest : findLatestBackup bs2 = some b)
    (hbfd : b.envFile = some fd)
    (hincomplete : check_env_credentials_content c = false) :
    ((check_existing_installation cfg
        (freshState ⟨some d, bs⟩ [resp])).1.fs.install = none
      ↔ lowerStr resp = "y") ∧
    ((restore_env_from_backup
        (freshState ⟨some d, bs2⟩ [resp])).2 = true
      ↔ lowerStr resp = "y") ∧
    (Prompt.editorEnter ∈
        (run cfg (freshState ⟨some ⟨some (.readable c)⟩, bs3⟩
          ["n", resp])).1.prompts
      ↔ lowerStr resp = "y") := by
  by_cases hy : lowerStr resp = "y"
  · refine ⟨?_, ?_, ?_⟩
    · simp only [check_existing_installation, freshState, takeInput, hy,
        show ((("y" : String) == "y")) = true by decide, if_true,
        backup_existing, hmv]
      rw [restore_env_no_input _ rfl]
      simp
    · simp only [restore_env_from_backup, freshState, hlatest, hbfd,
        takeInput, hy, show ((("y" : String) == "y")) = true by decide,
        if_true]
    · simp [run, hv, check_existing_installation, freshState, takeInput,
        show (lowerStr "n" == "y") = false by decide,
        ensure_install_dir, setup_environment, create_basic_env,
        final_steps, check_env_credentials, hincomplete, hy]
      split
      · rw [attempt_launch_fst, guide_env_setup_prompts]
        simp
      · simp [guide_env_setup_prompts]
  · have hyb : (lowerStr resp == "y") = false := by
      exact beq_eq_false_iff_ne.mpr hy
    refine ⟨?_, ?_, ?_⟩
    · simp [check_existing_installation, freshState, takeInput, hyb, hy]
    · simp [restore_env_from_backup, freshState, hlatest, hbfd, takeInput,
        hyb, hy]
    · simp [run, hv, check_existing_installation, freshState, takeInput,
        show (lowerStr "n" == "y") = false by decide,
        ensure_install_dir, setup_environment, create_basic_env,
        final_steps, check_env_credentials, hincomplete, hyb, hy]

/-- C9 witness: the response `yes` -- whose lowercased form is not
exactly `y` -- declines all three offers. -/
theorem claim_C9_witness :
    ((check_existing_installation ⟨(3, 9), "20250101-120000", true, true, none⟩
        (freshState ⟨some ⟨none⟩, []⟩ ["yes"])).1.fs.install = none
      ↔ lowerStr "yes" = "y") ∧
    ((restore_env_from_backup
        (freshState ⟨some ⟨none⟩,
          [⟨"StitchKit.backup-20250101-000000", some (.readable "X")⟩]⟩
          ["yes"])).2 = true
      ↔ lowerStr "yes" = "y") ∧
    (Prompt.editorEnter ∈
        (run ⟨(3, 9), "20250101-120000", true, true, none⟩
          (freshState ⟨some ⟨some (.readable "nothing")⟩, []⟩
            ["n", "yes"])).1.prompts
      ↔ lowerStr "yes" = "y") :=
  claim_C9 "yes" ⟨(3, 9), "20250101-120000", true, true, none⟩ ⟨none⟩
    [] [⟨"StitchKit.backup-20250101-000000", some (.readable "X")⟩] []
    ⟨"StitchKit.backup-20250101-000000", some (.readable "X")⟩
    (.readable "X") "nothing"
    rfl (by decide) (by decide) rfl (by decide)

/-- One `run` over an already-complete installation with the backup
offer declined: it launches, leaves the filesystem unchanged, and its
only prompt is the backup offer. -/
theorem run_complete_decline (cfg : Cfg) (c : String) (bs : List Backup)
    (r : List String)
    (hc : check_env_credentials_content c = true)
    (hv : check_python_version cfg.version = true)
    (hl : cfg.launchOk = true) :
    run cfg (freshState ⟨some ⟨some (.readable c)⟩, bs⟩ ("n" :: r)) =
      ({ fs := ⟨some ⟨some (.readable c)⟩, bs⟩, inputs := r,
         env_restored := false, env_has_credentials := true,
         prompts := [.backupQ] }, .launched, true) := by
  simp [run, hv, check_existing_installation, freshState, takeInput,
    show (lowerStr "n" == "y") = false by decide,
    ensure_install_dir, setup_environment, create_basic_env,
    final_steps, check_env_credentials, hc, attempt_launch, hl]

/-- C2 counterexample: running the orchestrator a second time against
an installation whose configuration already passes the credential
check does prompt for a backup -- `check_existing_installation`
triggers on the directory's existence, not on its credential state --
refuting the claim that no backup prompt occurs. -/
theorem claim_C2_counterexample :
    Prompt.backupQ ∈
      (run ⟨(3, 9), "20250102-000000", true, true, none⟩
        (freshState
          (run ⟨(3, 9), "20250101-000000", true, true, none⟩
            (freshState
              ⟨some ⟨some (.readable
                "CANVAS_API_KEY=abc\nHONORLOCK_CONSUMER_KEY=def\nHONORLOCK_SHARED_SECRET=ghi\n")⟩,
               []⟩
              ["n"])).1.fs
          ["n"])).1.prompts := by
  decide

/-- C2 (amended): running the orchestrator twice against an
already-complete installation prompts for a backup on each run (the
existing-installation check triggers on directory existence); when the
user declines the offer, both runs reach the `LAUNCHED` outcome and
the configuration file's content is unchanged. -/
theorem claim_C2_amended (c : String) (cfg : Cfg) (bs : List Backup)
    (r1 r2 : List String)
    (hc : check_env_credentials_content c = true)
    (hv : check_python_version cfg.version = true)
    (hl : cfg.launchOk = true) :
    ((run cfg (freshState ⟨some ⟨some (.readable c)⟩, bs⟩ ("n" :: r1))).2.1
        = .launched) ∧
    ((run cfg (freshState ⟨some ⟨some (.readable c)⟩, bs⟩ ("n" :: r1))).1.fs
        = ⟨some ⟨some (.readable c)⟩, bs⟩) ∧
    (Prompt.backupQ ∈
      (run cfg (freshState ⟨some ⟨some (.readable c)⟩, bs⟩
        ("n" :: r1))).1.prompts) ∧
    ((run cfg (freshState
        (run cfg (freshState ⟨some ⟨some (.readable c)⟩, bs⟩
          ("n" :: r1))).1.fs
        ("n" :: r2))).2.1 = .launched) ∧
    ((run cfg (freshState
        (run cfg (freshState ⟨some ⟨some (.readable c)⟩, bs⟩
          ("n" :: r1))).1.fs
        ("n" :: r2))).1.fs = ⟨some ⟨some (.readable c)⟩, bs⟩) := by
  have h1 := run_complete_decline cfg c bs r1 hc hv hl
  have h2 := run_complete_decline cfg c bs r2 hc hv hl
  rw [h1]
  refine ⟨rfl, rfl, by simp, ?_, ?_⟩ <;> rw [h2]

/-- C2 witness: a concrete complete configuration, with the backup
offer declined in each run, launches twice with the filesystem
unchanged and the backup prompt issued. -/
theorem claim_C2_amended_witness :
    ((run ⟨(3, 9), "20250101-120000", true, true, none⟩
        (freshState ⟨some ⟨some (.readable
          "CANVAS_API_KEY=abc\nHONORLOCK_CONSUMER_KEY=def\nHONORLOCK_SHARED_SECRET=ghi\n")⟩,
          []⟩ ("n" :: []))).2.1 = .launched) ∧
    ((run ⟨(3, 9), "20250101-120000", true, true, none⟩
        (freshState ⟨some ⟨some (.readable
          "CANVAS_API_KEY=abc\nHONORLOCK_CONSUMER_KEY=def\nHONORLOCK_SHARED_SECRET=ghi\n")⟩,
          []⟩ ("n" :: []))).1.fs
        = ⟨some ⟨some (.readable
          "CANVAS_API_KEY=abc\nHONORLOCK_CONSUMER_KEY=def\nHONORLOCK_SHARED_SECRET=ghi\n")⟩,
          []⟩) ∧
    (Prompt.backupQ ∈
      (run ⟨(3, 9), "20250101-120000", true, true, none⟩
        (freshState ⟨some ⟨some (.readable
          "CANVAS_API_KEY=abc\nHONORLOCK_CONSUMER_KEY=def\nHONORLOCK_SHARED_SECRET=ghi\n")⟩,
          []⟩ ("n" :: []))).1.prompts) ∧
    ((run ⟨(3, 9), "20250101-120000", true, true, none⟩
        (freshState
          (run ⟨(3, 9), "20250101-120000", true, true, none⟩
            (freshState ⟨some ⟨some (.readable
              "CANVAS_API_KEY=abc\nHONORLOCK_CONSUMER_KEY=def\nHONORLOCK_SHARED_SECRET=ghi\n")⟩,
              []⟩ ("n" :: []))).1.fs
          ("n" :: []))).2.1 = .launched) ∧
    ((run ⟨(3, 9), "20250101-120000", true, true, none⟩
        (freshState
          (run ⟨(3, 9), "20250101-120000", true, true, none⟩
            (freshState ⟨some ⟨some (.readable
              "CANVAS_API_KEY=abc\nHONORLOCK_CONSUMER_KEY=def\nHONORLOCK_SHARED_SECRET=ghi\n")⟩,
              []⟩ ("n" :: []))).1.fs
          ("n" :: []))).1.fs
        = ⟨some ⟨some (.readable
          "CANVAS_API_KEY=abc\nHONORLOCK_CONSUMER_KEY=def\nHONORLOCK_SHARED_SECRET=ghi\n")⟩,
          []⟩) :=
  claim_C2_amended
    "CANVAS_API_KEY=abc\nHONORLOCK_CONSUMER_KEY=def\nHONORLOCK_SHARED_SECRET=ghi\n"
    ⟨(3, 9), "20250101-120000", true, true, none⟩ [] [] []
    (by decide) rfl rfl

/-- The launch attempt ends in `LAUNCHED` or in the guided-manual
instructions, and `run` returns `True` either way. -/
theorem attempt_launch_shape (cfg : Cfg) (s : IState) :
    ((attempt_launch cfg s).2.1 = .launched ∨
      (attempt_launch cfg s).2.1 = .guidedManual) ∧
    (attempt_launch cfg s).2.2 = true := by
  unfold attempt_launch
  split <;> simp

/-- The final decision step always ends in `LAUNCHED` or
`GUIDED_MANUAL`, and always returns `True`. -/
theorem final_steps_shape (cfg : Cfg) (s : IState) :
    ((final_steps cfg s).2.1 = .launched ∨
      (final_steps cfg s).2.1 = .guidedManual) ∧
    (final_steps cfg s).2.2 = true := by
  unfold final_steps
  dsimp only
  split
  · exact attempt_launch_shape cfg _
  · split
    · exact attempt_launch_shape cfg _
    · split
      · split
        · exact attempt_launch_shape cfg _
        · simp
      · simp

/-- A failed version check aborts `run` with `False`; a passing one
always ends in a success outcome with `run` returning `True`. -/
theorem run_shape (cfg : Cfg) (s : IState) :
    (check_python_version cfg.version = false →
      run cfg s = (s, .versionFail, false)) ∧
    (check_python_version cfg.version = true →
      ((run cfg s).2.1 = .launched ∨ (run cfg s).2.1 = .guidedManual) ∧
      (run cfg s).2.2 = true) := by
  constructor
  · intro h
    simp [run, h]
  · intro h
    unfold run
    rw [h, if_neg (by simp)]
    exact final_steps_shape cfg _

/-- C8: the process exit code is 0 exactly on the terminal success
paths (launched, or guided-manual instructions shown, with `run`
returning normally), and 1 exactly in the three fatal cases: the
runtime version below the (3, 7) floor, an unhandled exception
reaching `main`, or a keyboard interrupt. -/
theorem claim_C8 (cfg : Cfg) (s : IState) (ev : TopEvent) :
    (main_exit cfg s ev = 0 ↔
      (ev = .normal ∧
        ((run cfg s).2.1 = .launched ∨ (run cfg s).2.1 = .guidedManual))) ∧
    ((run cfg s).2.1 = .versionFail ↔
      (cfg.version.1 < 3 ∨ (cfg.version.1 = 3 ∧ cfg.version.2 < 7))) := by
  by_cases hv : check_python_version cfg.version = true
  · obtain ⟨hout, hb⟩ := (run_shape cfg s).2 hv
    have hfloor : ¬ (cfg.version.1 < 3 ∨
        (cfg.version.1 = 3 ∧ cfg.version.2 < 7)) := by
      intro hcon
      simp [check_python_version, hcon] at hv
    refine ⟨?_, ?_⟩
    · cases ev with
      | normal => simp [main_exit, hb, hout]
      | keyboardInterrupt => simp [main_exit]
      | raised => simp [main_exit]
    · rcases hout with h | h <;> simp [h, hfloor]
  · have hvf : check_python_version cfg.version = false := by
      cases hcv : check_python_version cfg.version
      · rfl
      · exact absurd hcv hv
    have hrun := (run_shape cfg s).1 hvf
    have hfloor : cfg.version.1 < 3 ∨
        (cfg.version.1 = 3 ∧ cfg.version.2 < 7) := by
      by_contra hcon
      simp [check_python_version, hcon] at hvf
    refine ⟨?_, ?_⟩
    · cases ev with
      | normal => simp [main_exit, hrun]
      | keyboardInterrupt => simp [main_exit]
      | raised => simp [main_exit]
    · simp [hrun, hfloor]

